import Mathlib

/-!
Verification development for the consulta-tjms repository: a shallow
embedding of the identifier normalizer, the retrying fetcher, the two
portal HTML extractors (eSAJ and eproc), the portal adapters, and the
merge engine from `src/server.js`, together with theorems settling the
specification claims.

DOM access through cheerio and `new Date` parsing are environment
boundaries: pages are modelled as records holding exactly the texts the
source's selectors read, and date parsing is a parameter (instantiated
with an executable ISO-date model where a concrete value is needed).
All string-level logic (truthiness of `||`, whitespace collapsing,
substring checks, digit stripping, slicing) is modelled directly.
-/

namespace ConsultaTJMS

/-- JavaScript `a || b` on strings: the empty string is the only falsy
string, so the result is `a` unless `a` is empty. -/
def jsOr (a b : String) : String :=
  if a = "" then b else a

/-- Whether `pat` occurs at the head of the character list. -/
def isPrefixList : List Char → List Char → Bool
  | [], _ => true
  | _ :: _, [] => false
  | p :: ps, c :: cs => p == c && isPrefixList ps cs

/-- Whether `pat` occurs anywhere in the character list. -/
def containsList (pat : List Char) : List Char → Bool
  | [] => pat.isEmpty
  | c :: cs => isPrefixList pat (c :: cs) || containsList pat cs

/-- JavaScript `s.includes(pat)`. -/
def containsSubstr (s pat : String) : Bool :=
  containsList pat.data s.data

/-- The maximal whitespace-separated words of a character list
(accumulator holds the current word reversed). -/
def wordsAux : List Char → List Char → List (List Char)
  | [], acc => if acc.isEmpty then [] else [acc.reverse]
  | c :: cs, acc =>
    if c.isWhitespace then
      if acc.isEmpty then wordsAux cs [] else acc.reverse :: wordsAux cs []
    else wordsAux cs (c :: acc)

/-- Join words with single spaces. -/
def joinWords : List (List Char) → List Char
  | [] => []
  | [w] => w
  | w :: ws => w ++ ' ' :: joinWords ws

/-- `limpar` (both scrapers): `texto.replace(/\s+/g, ' ').trim()` — every
run of whitespace collapses to a single space and the ends are trimmed. -/
def limpar (texto : String) : String :=
  String.mk (joinWords (wordsAux texto.data []))

/-- JavaScript `s.trim()`. -/
def jsTrim (s : String) : String :=
  String.mk (((s.data.dropWhile Char.isWhitespace).reverse.dropWhile
    Char.isWhitespace).reverse)

/-- Everything before the first occurrence of `sep` (the whole list when
`sep` is absent); `sep` is assumed non-empty. -/
def splitHeadList (sep : List Char) : List Char → List Char
  | [] => []
  | c :: cs => if isPrefixList sep (c :: cs) then [] else c :: splitHeadList sep cs

/-- Everything after the first occurrence of `sep` (`[]` when absent);
`sep` is assumed non-empty. -/
def afterFirstList (sep : List Char) : List Char → List Char
  | [] => []
  | c :: cs =>
    if isPrefixList sep (c :: cs) then cs.drop (sep.length - 1)
    else afterFirstList sep cs

/-- Remove the first occurrence of `sep`; `sep` is assumed non-empty. -/
def replaceFirstList (sep : List Char) : List Char → List Char
  | [] => []
  | c :: cs =>
    if isPrefixList sep (c :: cs) then cs.drop (sep.length - 1)
    else c :: replaceFirstList sep cs

/-- Split at every occurrence of `sep` (fuel-driven so that the kernel
can evaluate it; `fuel` bounds the number of characters consumed). -/
def splitOnListAux (sep : List Char) : Nat → List Char → List Char → List (List Char)
  | 0, l, acc => [acc.reverse ++ l]
  | _ + 1, [], acc => [acc.reverse]
  | fuel + 1, c :: cs, acc =>
    if isPrefixList sep (c :: cs) then
      acc.reverse :: splitOnListAux sep fuel ((c :: cs).drop sep.length) []
    else splitOnListAux sep fuel cs (c :: acc)

/-- JavaScript `s.split(sep)` on character lists; `sep` assumed non-empty. -/
def splitOnList (sep l : List Char) : List (List Char) :=
  splitOnListAux sep (l.length + 1) l []

/-- Digits-only list to number (`none` otherwise). -/
def charsToNat? (l : List Char) : Option Nat :=
  if l ≠ [] ∧ l.all Char.isDigit then
    some (l.foldl (fun n c => n * 10 + (c.toNat - 48)) 0)
  else none

/-- JavaScript `String.prototype.toLowerCase` on one character, covering
ASCII plus the accented capitals appearing in the portal labels. -/
def jsCharToLower (c : Char) : Char :=
  if c = 'Á' then 'á' else if c = 'À' then 'à' else if c = 'Â' then 'â'
  else if c = 'Ã' then 'ã' else if c = 'É' then 'é' else if c = 'Ê' then 'ê'
  else if c = 'Í' then 'í' else if c = 'Ó' then 'ó' else if c = 'Ô' then 'ô'
  else if c = 'Õ' then 'õ' else if c = 'Ú' then 'ú' else if c = 'Ü' then 'ü'
  else if c = 'Ç' then 'ç' else c.toLower

/-- JavaScript `s.toLowerCase()` over the alphabet used by the labels. -/
def jsToLower (s : String) : String :=
  String.mk (s.data.map jsCharToLower)

/-- `numero.replace(/[^0-9]/g, '')` — keep only the decimal digits. -/
def stripNonDigits (s : String) : String :=
  String.mk (s.data.filter Char.isDigit)

/-- JavaScript `s.substring(a, b)` (for `a ≤ b`), character-indexed. -/
def jsSubstring (s : String) (a b : Nat) : String :=
  String.mk ((s.data.drop a).take (b - a))

/-- JavaScript `s.split(sep)[0]`. -/
def jsSplitHead (s sep : String) : String :=
  if sep = "" then s else String.mk (splitHeadList sep.data s.data)

/-- JavaScript `s.replace(pat, '')` for a plain-string pattern: remove the
first occurrence of `pat` (identity when `pat` is absent or empty). -/
def jsReplaceFirst (s pat : String) : String :=
  if pat = "" then s else String.mk (replaceFirstList pat.data s.data)

/-- JavaScript `tipo.replace(/:$/, '')`: drop one trailing colon. -/
def stripTrailingColon (s : String) : String :=
  if s.data.getLast? = some ':' then String.mk s.data.dropLast else s

/-- First non-empty string of an ordered candidate list (the spec's
"first available wins" formulation of field precedence). -/
def firstNonEmpty : List String → String
  | [] => ""
  | s :: rest => if s ≠ "" then s else firstNonEmpty rest

/-- A thrown JavaScript `Error`, classified by how the repository builds
its message. -/
inductive JsError where
  /-- `parseNumeroCNJ` / `formatarNumeroEproc` digit-count failure. -/
  | invalidNumero (msg : String)
  /-- `throw new Error(HTTP status: statusText)` from `fetchComRetry`. -/
  | http (code : Nat) (statusText : String)
  /-- an `AbortError` renamed to `Timeout de ...ms excedido`. -/
  | timeout (ms : Nat)
  /-- a transport-level failure (DNS, connection refused, ...). -/
  | transport (msg : String)
deriving DecidableEq, Repr

/-- The `err.message` string each constructor carries. -/
def JsError.message : JsError → String
  | .invalidNumero m => m
  | .http code statusText => "HTTP " ++ toString code ++ ": " ++ statusText
  | .timeout ms => "Timeout de " ++ toString ms ++ "ms excedido"
  | .transport m => m

/-- The eproc adapters' connectivity test:
`err.message.includes('ENOTFOUND') || includes('ECONNREFUSED') || includes('Timeout')`. -/
def isConnectivityMsg (msg : String) : Bool :=
  containsSubstr msg "ENOTFOUND" || containsSubstr msg "ECONNREFUSED" ||
    containsSubstr msg "Timeout"

/-- Return value of `parseNumeroCNJ` (src/scrapers/esaj.js:40-58). -/
structure ParsedCNJ where
  numeroDigitoAno : String
  foro : String
  completo : String
  j : String
  tr : String
deriving DecidableEq, Repr

/-- `parseNumeroCNJ` (src/scrapers/esaj.js:40-58): strip non-digits, fail
unless exactly 20 digits remain, then slice the six CNJ segments and
rebuild the dashed canonical form. -/
def parseNumeroCNJ (numero : String) : Except JsError ParsedCNJ :=
  let limpo := stripNonDigits numero
  if limpo.length ≠ 20 then
    .error (.invalidNumero
      ("Número do processo inválido: esperado 20 dígitos, recebido " ++
        toString limpo.length))
  else
    let nnnnnnn := jsSubstring limpo 0 7
    let dd := jsSubstring limpo 7 9
    let aaaa := jsSubstring limpo 9 13
    let j := jsSubstring limpo 13 14
    let tr := jsSubstring limpo 14 16
    let oooo := jsSubstring limpo 16 20
    let completo := nnnnnnn ++ "-" ++ dd ++ "." ++ aaaa ++ "." ++ j ++ "." ++
      tr ++ "." ++ oooo
    let numeroDigitoAno := nnnnnnn ++ "-" ++ dd ++ "." ++ aaaa
    .ok { numeroDigitoAno := numeroDigitoAno, foro := oooo,
          completo := completo, j := j, tr := tr }

/-- `formatarNumeroEproc` (src/scrapers/eproc.js:40-49): same 20-digit
check, returning only the dashed canonical string. -/
def formatarNumeroEproc (numeroCNJ : String) : Except JsError String :=
  let limpo := stripNonDigits numeroCNJ
  if limpo.length ≠ 20 then
    .error (.invalidNumero
      ("Número inválido: esperado 20 dígitos, recebido " ++
        toString limpo.length))
  else
    .ok (jsSubstring limpo 0 7 ++ "-" ++ jsSubstring limpo 7 9 ++ "." ++
      jsSubstring limpo 9 13 ++ "." ++ jsSubstring limpo 13 14 ++ "." ++
      jsSubstring limpo 14 16 ++ "." ++ jsSubstring limpo 16 20)

/-- The six CNJ segments (sequence, check digits, year, segment, court,
unit) of a 20-digit string. -/
def cnjSegments (limpo : String) : List String :=
  [jsSubstring limpo 0 7, jsSubstring limpo 7 9, jsSubstring limpo 9 13,
   jsSubstring limpo 13 14, jsSubstring limpo 14 16, jsSubstring limpo 16 20]

/-- Outcome of one fetch attempt, as the surrounding code observes it:
a response with `resp.ok` true, a response with some other status, an
abort (timeout), or a transport error. -/
inductive Attempt where
  | ok
  | status (code : Nat) (statusText : String)
  | abort
  | netErr (msg : String)
deriving DecidableEq, Repr

/-- Loop body of `fetchComRetry` (src/scrapers/esaj.js:60-94 and
src/scrapers/eproc.js:51-82; identical up to constants). `attempts i` is
the outcome of attempt `i`; `left` is the number of loop iterations
remaining (`retries - i`). A success returns the index of the succeeding
attempt. Note that the `throw new Error(HTTP ...)` for a non-ok, non-5xx
response sits inside the `try`, so the `catch` of the same iteration
swallows it and retries unless this is the last iteration. -/
def fetchLoop (attempts : Nat → Attempt) (timeoutMs retries : Nat) :
    Nat → Nat → Option (Except JsError Nat)
  | _, 0 => none
  | i, left + 1 =>
    match attempts i with
    | .ok => some (.ok i)
    | .status code statusText =>
      if code ≥ 500 ∧ i < retries - 1 then
        fetchLoop attempts timeoutMs retries (i + 1) left
      else if i = retries - 1 then some (.error (.http code statusText))
      else fetchLoop attempts timeoutMs retries (i + 1) left
    | .abort =>
      if i = retries - 1 then some (.error (.timeout timeoutMs))
      else fetchLoop attempts timeoutMs retries (i + 1) left
    | .netErr msg =>
      if i = retries - 1 then some (.error (.transport msg))
      else fetchLoop attempts timeoutMs retries (i + 1) left

/-- `fetchComRetry`: run the attempt loop `for (let i = 0; i < retries; i++)`.
`none` models the `undefined` fall-through when `retries = 0`. -/
def fetchComRetry (attempts : Nat → Attempt) (timeoutMs retries : Nat) :
    Option (Except JsError Nat) :=
  fetchLoop attempts timeoutMs retries 0 retries

/-- A lawyer entry: `{ nome, oab }`. -/
structure Advogado where
  nome : String
  oab : String
deriving DecidableEq, Repr

/-- A party entry: `{ tipo, nome, advogados }`. -/
structure Parte where
  tipo : String
  nome : String
  advogados : List Advogado
deriving DecidableEq, Repr

/-- A scraped movement entry: `{ data, descricao }`. -/
structure Mov where
  data : String
  descricao : String
deriving DecidableEq, Repr

namespace Esaj

/-- One row of the eSAJ parties table, holding the texts the row loop in
`parseProcessoHTML` (src/scrapers/esaj.js:176-237) reads from the DOM:
the first cell's text, the `.tipoDeParticipacao` span's text, the last
cell's text, and the last cell's first text node. -/
structure ParteRow where
  firstTdText : String
  tipoDeParticipacaoText : String
  lastTdText : String
  lastTdFirstTextNode : String
deriving DecidableEq, Repr

/-- An eSAJ result page, abstracted to the texts and element-presence
facts the cheerio selectors of `parseProcessoHTML` extract. Each field
names the selector it stands for. -/
structure Page where
  /-- `$('#mensagemRetorno').text()` -/
  mensagemRetorno : String := ""
  /-- `$('a.linkProcesso').first().attr('href')` (`none` = no such link) -/
  linkProcesso : Option String := none
  /-- `$('#classeProcesso').length > 0` -/
  hasClasseProcesso : Bool := false
  /-- `$('#labelClasse').length > 0` -/
  hasLabelClasse : Bool := false
  /-- `$('#classeProcesso').text()` -/
  classeProcessoText : String := ""
  /-- `$('#labelClasse').text()` -/
  labelClasseText : String := ""
  /-- `$('span[id*=classe]').first().text()` -/
  spanClasseText : String := ""
  /-- `$('#areaProcesso span').first().text()` -/
  areaSpanText : String := ""
  /-- `$('#labelArea').text()` -/
  labelAreaText : String := ""
  /-- `$('div#areaProcesso').text()` -/
  divAreaText : String := ""
  /-- `$('#assuntoProcesso').text()` -/
  assuntoProcessoText : String := ""
  /-- `$('#labelAssunto').text()` -/
  labelAssuntoText : String := ""
  /-- `$('span[id*=assunto]').first().text()` -/
  spanAssuntoText : String := ""
  /-- `$('#dataHoraDistribuicaoProcesso').text()` -/
  dataHoraDistribuicaoText : String := ""
  /-- `$('div#dataHoraDistribuicaoProcesso').text()` -/
  divDataHoraDistribuicaoText : String := ""
  /-- `$('#labelDistribuicao').text()` -/
  labelDistribuicaoText : String := ""
  /-- `$('#juizProcesso').text()` -/
  juizProcessoText : String := ""
  /-- `$('span[id*=juiz]').first().text()` -/
  spanJuizText : String := ""
  /-- `$('#labelJuiz').text()` -/
  labelJuizText : String := ""
  /-- `$('#valorAcaoProcesso').text()` -/
  valorAcaoText : String := ""
  /-- `$('div#valorAcaoProcesso').text()` -/
  divValorAcaoText : String := ""
  /-- `$('#labelValor').text()` -/
  labelValorText : String := ""
  /-- `$('#numeroProcesso').text()` -/
  numeroProcessoText : String := ""
  /-- `$('span.unj-larger').first().text()` -/
  spanUnjLargerText : String := ""
  /-- `$('h2.subtitle').first().text()` -/
  h2SubtitleText : String := ""
  /-- `$('#tableTodasPartes').length > 0` -/
  hasTableTodasPartes : Bool := false
  /-- rows of `#tableTodasPartes tr` -/
  todasPartesRows : List ParteRow := []
  /-- rows of `#tablePartesPrincipais tr` -/
  partesPrincipaisRows : List ParteRow := []
  /-- fallback rows of `.secaoFormBody, #partesProcesso` `tr, .linha-parte`:
  (label/first-cell text, value/last-cell text) -/
  partesAltRows : List (String × String) := []
  /-- `$('#tabelaTodasMovimentacoes').length > 0` -/
  hasTabelaTodasMovimentacoes : Bool := false
  /-- rows of `#tabelaTodasMovimentacoes tr`: (date cell text, description cell text) -/
  todasMovRows : List (String × String) := []
  /-- rows of `#tabelaUltimasMovimentacoes tr` -/
  ultimasMovRows : List (String × String) := []
deriving DecidableEq, Repr

/-- An eSAJ source record as built by `parseProcessoHTML`
(src/scrapers/esaj.js:113-124, plus the `numero` field set at line 165). -/
structure Record where
  fonte : String := "esaj"
  grau : String := ""
  classe : String := ""
  area : String := ""
  assunto : String := ""
  distribuicao : String := ""
  juiz : String := ""
  valorAcao : String := ""
  numero : String := ""
  partes : List Parte := []
  movimentacoes : List Mov := []
deriving DecidableEq, Repr

/-- Result of `parseProcessoHTML`: `null`, a `{ redirect }` object, or a
populated record. -/
inductive ParseResult where
  | noRecord
  | redirect (link : String)
  | record (r : Record)
deriving DecidableEq, Repr

/-- Truthiness of a `parseProcessoHTML` result as the callers test it
(`null` is the only falsy value; both other shapes are objects). -/
def ParseResult.isTruthy : ParseResult → Bool
  | .noRecord => false
  | _ => true

/-- The counsel-label markers of the party-row regular expression
`(?:Advogad[oa]|Adv\.?):`. -/
def advMarkers : List (List Char) :=
  ["Advogado:".data, "Advogada:".data, "Adv.:".data, "Adv:".data]

/-- Length of the marker matching at the head of `l`, if any. -/
def markerAt (l : List Char) : Option Nat :=
  ((advMarkers.filter (fun m => isPrefixList m l)).head?).map List.length

/-- Split the text at every counsel marker; the accumulator holds the
current segment reversed, `segs` the finished segments reversed. -/
def advSegsAux : Nat → List Char → List Char → List (List Char) → List (List Char)
  | 0, l, acc, segs => (acc.reverse ++ l) :: segs
  | _ + 1, [], acc, segs => acc.reverse :: segs
  | fuel + 1, c :: cs, acc, segs =>
    match markerAt (c :: cs) with
    | some k => advSegsAux fuel ((c :: cs).drop k) [] (acc.reverse :: segs)
    | none => advSegsAux fuel cs (c :: acc) segs

/-- The counsel entries the party-row regex pair
(src/scrapers/esaj.js:217-228) extracts from the cleaned last-cell text:
occurrences of a marker `Advogado:`/`Advogada:`/`Adv.:`/`Adv:` each
followed by a name and an optional parenthesized `(OAB: ...)` code.
Models the two regular expressions procedurally: split the text at the
markers; in each following segment the name runs to the `(OAB` opener
when present, otherwise to the next marker or the end; the registration
code runs from after `(OAB` (colons/whitespace skipped) to the closing
parenthesis. -/
def extractAdvogados (nomeCompleto : String) : List Advogado :=
  let l := nomeCompleto.data
  match (advSegsAux (l.length + 1) l [] []).reverse with
  | [] => []
  | _ :: segs => segs.map fun seg =>
      if containsList "(OAB".data seg then
        { nome := limpar (String.mk (splitHeadList "(OAB".data seg)),
          oab := limpar (String.mk
            (((afterFirstList "(OAB".data seg).dropWhile
              (fun c => c == ':' || c.isWhitespace)).takeWhile (· != ')'))) }
      else { nome := limpar (String.mk seg), oab := "" }

/-- One iteration of the party-row loop (src/scrapers/esaj.js:176-237):
`none` when the row is skipped, otherwise the pushed party. -/
def parseParteRow (row : ParteRow) : Option Parte :=
  let tipo0 := limpar row.firstTdText
  let tipo := if tipo0 = "" then limpar row.tipoDeParticipacaoText else tipo0
  let nomeCompleto := limpar row.lastTdText
  if tipo = "" ∧ nomeCompleto = "" then none
  else
    let nomeParte := limpar (jsOr row.lastTdFirstTextNode
      (jsSplitHead (jsSplitHead nomeCompleto "Advogado") "Adv."))
    let advogados := extractAdvogados nomeCompleto
    if nomeParte ≠ "" ∨ tipo ≠ "" then
      some { tipo := jsTrim (stripTrailingColon tipo),
             nome := if nomeParte ≠ "" then nomeParte else nomeCompleto,
             advogados := advogados }
    else none

/-- One iteration of the fallback party loop
(src/scrapers/esaj.js:242-249). -/
def parseParteAltRow (row : String × String) : Option Parte :=
  let tipo := limpar row.1
  let nome := limpar row.2
  if tipo ≠ "" ∨ nome ≠ "" then
    some { tipo := tipo, nome := nome, advogados := [] }
  else none

/-- One iteration of the movements loop (src/scrapers/esaj.js:256-270). -/
def parseMovRow (row : String × String) : Option Mov :=
  let data := limpar row.1
  let descricao := limpar row.2
  if data ≠ "" ∨ descricao ≠ "" then
    some { data := data, descricao := descricao }
  else none

/-- `parseProcessoHTML` (src/scrapers/esaj.js:98-276). Sentinel order as
in the source: the `não encontrado` message yields `null`; a
`a.linkProcesso` link on a page without the detail markers yields the
`{ redirect }` object; otherwise the record is built from the per-field
selector fallback chains and the party/movement tables. The source has
no final all-empty check: the record is returned as-is. -/
def parseProcessoHTML (page : Page) (grau : String) : ParseResult :=
  let mensagemErro := jsTrim page.mensagemRetorno
  if mensagemErro ≠ "" ∧ containsSubstr mensagemErro "não encontrado" then
    .noRecord
  else
    let redirectLink : Option String :=
      match page.linkProcesso with
      | some link =>
        if link ≠ "" ∧ ¬ page.hasClasseProcesso ∧ ¬ page.hasLabelClasse then
          some link
        else none
      | none => none
    match redirectLink with
    | some link => .redirect link
    | none =>
      let partesRows :=
        if page.hasTableTodasPartes then page.todasPartesRows
        else page.partesPrincipaisRows
      let partes := partesRows.filterMap parseParteRow
      let partes :=
        if partes = [] then page.partesAltRows.filterMap parseParteAltRow
        else partes
      let movRows :=
        if page.hasTabelaTodasMovimentacoes then page.todasMovRows
        else page.ultimasMovRows
      let movimentacoes := movRows.filterMap parseMovRow
      -- `resultado.movimentacoes.filter(m => m.data || m.descricao)` — a
      -- no-op repeat of the push condition, kept for fidelity
      let movimentacoes :=
        movimentacoes.filter (fun m => m.data != "" || m.descricao != "")
      .record
        { fonte := "esaj", grau := grau,
          classe := limpar (jsOr page.classeProcessoText
            (jsOr page.labelClasseText page.spanClasseText)),
          area := limpar (jsOr page.areaSpanText
            (jsOr page.labelAreaText page.divAreaText)),
          assunto := limpar (jsOr page.assuntoProcessoText
            (jsOr page.labelAssuntoText page.spanAssuntoText)),
          distribuicao := limpar (jsOr page.dataHoraDistribuicaoText
            (jsOr page.divDataHoraDistribuicaoText page.labelDistribuicaoText)),
          juiz := limpar (jsOr page.juizProcessoText
            (jsOr page.spanJuizText page.labelJuizText)),
          valorAcao := limpar (jsOr page.valorAcaoText
            (jsOr page.divValorAcaoText page.labelValorText)),
          numero := limpar (jsOr page.numeroProcessoText
            (jsOr page.spanUnjLargerText page.h2SubtitleText)),
          partes := partes, movimentacoes := movimentacoes }

end Esaj

namespace Eproc

/-- An eproc source record as built by `parseEprocHTML`
(src/scrapers/eproc.js:110-122). -/
structure Record where
  fonte : String := "eproc"
  grau : String := ""
  classe : String := ""
  area : String := ""
  assunto : String := ""
  distribuicao : String := ""
  juiz : String := ""
  orgaoJulgador : String := ""
  situacao : String := ""
  partes : List Parte := []
  movimentacoes : List Mov := []
deriving DecidableEq, Repr

/-- A table row as the eproc loops observe it: whether the row contains a
`th` (header) cell, and the texts of its `td` cells in order. -/
structure Row where
  hasTh : Bool
  cells : List String
deriving DecidableEq, Repr

/-- A `div.parte`-style fallback block (src/scrapers/eproc.js:188-194):
the `.tipoParte/strong` text, the `.nomeParte` text, and the block's own
full text. -/
structure ParteAltRow where
  tipoText : String
  nomeText : String
  elText : String
deriving DecidableEq, Repr

/-- An eproc result page, abstracted to the texts the cheerio selectors
of `parseEprocHTML` (src/scrapers/eproc.js:96-233) read. -/
structure Page where
  /-- `$('div.aviso, div.infraAviso, .msgErro, .alert-danger').text()` -/
  erroMsg : String := ""
  /-- `$('form[name=frmLogin]').length || $('input[name=txtSenha]').length` -/
  hasLoginForm : Bool := false
  /-- pairs (label element text, following sibling's text) for each
  `label, span.infraLabelObrigatorio, span.infraLabel, th` element -/
  labelPairs : List (String × String) := []
  /-- texts of `table tr, div.infraFieldset div.row, fieldset div` rows -/
  rowTexts : List String := []
  /-- rows of `table.infraTable tr, #divPartes tr, #tblPartes tr` -/
  parteRows : List Row := []
  /-- blocks of `div.parte, div.infraDivPartesProcesso, [id*=parte]` -/
  parteAltRows : List ParteAltRow := []
  /-- rows of `table#tblEventos tr, table.infraTable:last tr, #divEventos tr,
  #tabelaEventos tr` -/
  eventoRows : List Row := []
deriving DecidableEq, Repr

/-- One step of "Abordagem 1" (src/scrapers/eproc.js:128-140): lower-case
the cleaned label text and overwrite each field whose keyword the label
contains, keeping the old value when the sibling text is empty. -/
def applyLabelPair (r : Record) (pair : String × String) : Record :=
  let labelText := jsToLower (limpar pair.1)
  let valor := limpar pair.2
  let r := if containsSubstr labelText "classe" then
    { r with classe := jsOr valor r.classe } else r
  let r := if containsSubstr labelText "assunto" then
    { r with assunto := jsOr valor r.assunto } else r
  let r := if containsSubstr labelText "área" || containsSubstr labelText "area" then
    { r with area := jsOr valor r.area } else r
  let r := if containsSubstr labelText "juiz" || containsSubstr labelText "magistrado" then
    { r with juiz := jsOr valor r.juiz } else r
  let r := if containsSubstr labelText "órgão julgador" ||
      containsSubstr labelText "orgao julgador" then
    { r with orgaoJulgador := jsOr valor r.orgaoJulgador } else r
  let r := if containsSubstr labelText "distribuição" ||
      containsSubstr labelText "distribuicao" ||
      containsSubstr labelText "autuação" then
    { r with distribuicao := jsOr valor r.distribuicao } else r
  let r := if containsSubstr labelText "situação" ||
      containsSubstr labelText "situacao" then
    { r with situacao := jsOr valor r.situacao } else r
  r

/-- The keyword alternation of the "Abordagem 2" regular expression
`^(Classe|Assunto|Área|Juiz|Órgão Julgador|Distribuição|Autuação|Situação)[:\s]+(.+)/i`,
in source order. -/
def rowKeywords : List String :=
  ["Classe", "Assunto", "Área", "Juiz", "Órgão Julgador", "Distribuição",
   "Autuação", "Situação"]

/-- Attempt of one alternation branch of the Abordagem-2 regular
expression against `texto`: a case-insensitive keyword prefix, then at
least one colon/whitespace character, then a non-empty remainder (with
the regex's one-character backtrack when the separators run to the end
of the string). Returns (matched keyword text, remainder). -/
def rowMatchKw (texto kw : String) : Option (String × String) :=
  let tl := texto.data
  let kl := kw.data
  if (tl.take kl.length).map jsCharToLower = kl.map jsCharToLower then
    let rest := tl.drop kl.length
    let seps := rest.takeWhile (fun c => c == ':' || c.isWhitespace)
    if seps.length = 0 then none
    else
      let after := rest.drop seps.length
      if after ≠ [] then some (String.mk (tl.take kl.length), String.mk after)
      else if seps.length ≥ 2 then
        some (String.mk (tl.take kl.length), String.mk (rest.drop (seps.length - 1)))
      else none
  else none

/-- The Abordagem-2 regular expression: first alternation branch that
matches at the start of `texto`. -/
def rowMatch (texto : String) : Option (String × String) :=
  rowKeywords.firstM (rowMatchKw texto)

/-- One step of "Abordagem 2" (src/scrapers/eproc.js:143-159): match the
row text against the label regular expression and fill each keyed field
only when it is still empty. -/
def applyRowText (r : Record) (texto0 : String) : Record :=
  let texto := limpar texto0
  match rowMatch texto with
  | none => r
  | some (kwText, rest) =>
    let key := jsToLower kwText
    let val := limpar rest
    let r := if containsSubstr key "classe" ∧ r.classe = "" then
      { r with classe := val } else r
    let r := if containsSubstr key "assunto" ∧ r.assunto = "" then
      { r with assunto := val } else r
    let r := if containsSubstr key "área" ∧ r.area = "" then
      { r with area := val } else r
    let r := if containsSubstr key "juiz" ∧ r.juiz = "" then
      { r with juiz := val } else r
    let r := if containsSubstr key "órgão" ∧ r.orgaoJulgador = "" then
      { r with orgaoJulgador := val } else r
    let r := if (containsSubstr key "distribuição" ∨ containsSubstr key "autuação") ∧
        r.distribuicao = "" then
      { r with distribuicao := val } else r
    let r := if containsSubstr key "situação" ∧ r.situacao = "" then
      { r with situacao := val } else r
    r

/-- One iteration of the eproc parties loop
(src/scrapers/eproc.js:166-184): header rows and rows with fewer than two
cells are skipped; a third cell, when present, becomes a single lawyer
entry without a registration code. -/
def parseParteRow (row : Row) : Option Parte :=
  if row.hasTh then none
  else
    match row.cells with
    | c0 :: c1 :: rest =>
      let tipo := limpar c0
      let nome := limpar c1
      let advogado := match rest with | a :: _ => limpar a | [] => ""
      if tipo ≠ "" ∨ nome ≠ "" then
        some { tipo := tipo, nome := nome,
               advogados := if advogado ≠ "" then [{ nome := advogado, oab := "" }] else [] }
      else none
    | _ => none

/-- One iteration of the fallback parties loop
(src/scrapers/eproc.js:188-194). -/
def parseParteAltRow (row : ParteAltRow) : Option Parte :=
  let tipo := limpar row.tipoText
  let nome := limpar (jsOr row.nomeText row.elText)
  if tipo ≠ "" ∨ nome ≠ "" then
    some { tipo := tipo, nome := jsTrim (jsReplaceFirst nome tipo), advogados := [] }
  else none

/-- One iteration of the events loop (src/scrapers/eproc.js:199-228):
4-or-more cells are read as (ordinal | date | event | detail), exactly 3
as (date | event | detail); event and detail are joined with an em dash. -/
def parseEventoRow (row : Row) : Option Mov :=
  if row.hasTh then none
  else if row.cells.length ≥ 3 then
    if row.cells.length ≥ 4 then
      let data := limpar (row.cells.getD 1 "")
      let evento := limpar (row.cells.getD 2 "")
      let desc := limpar (row.cells.getD 3 "")
      let descricao := evento ++ (if desc ≠ "" then " — " ++ desc else "")
      if data ≠ "" ∨ descricao ≠ "" then
        some { data := data, descricao := descricao }
      else none
    else
      let data := limpar (row.cells.getD 0 "")
      let evento := limpar (row.cells.getD 1 "")
      let extra := limpar (row.cells.getD 2 "")
      let descricao := if extra ≠ "" then evento ++ " — " ++ extra else evento
      if data ≠ "" ∨ descricao ≠ "" then
        some { data := data, descricao := descricao }
      else none
  else none

/-- `parseEprocHTML` (src/scrapers/eproc.js:96-233): error-message and
login-form sentinels first, then the two field-filling passes, the party
and event tables, and the final significance gate `temDados` — a record
whose `classe` and `assunto` are empty and whose party and movement
lists are empty is reported as `null`, never returned. -/
def parseEprocHTML (page : Page) (grau : String) : Option Record :=
  let erroMsg := jsTrim page.erroMsg
  if erroMsg ≠ "" ∧ (containsSubstr erroMsg "não encontrado" ∨
      containsSubstr erroMsg "Nenhum processo" ∨ containsSubstr erroMsg "inválido") then
    none
  else if page.hasLoginForm then none
  else
    let r0 : Record := { fonte := "eproc", grau := grau }
    let r1 := page.labelPairs.foldl applyLabelPair r0
    let r2 := page.rowTexts.foldl applyRowText r1
    let partes := page.parteRows.filterMap parseParteRow
    let partes :=
      if partes = [] then page.parteAltRows.filterMap parseParteAltRow
      else partes
    let movimentacoes := page.eventoRows.filterMap parseEventoRow
    let resultado := { r2 with partes := partes, movimentacoes := movimentacoes }
    let temDados := resultado.classe ≠ "" ∨ resultado.assunto ≠ "" ∨
      resultado.partes ≠ [] ∨ resultado.movimentacoes ≠ []
    if temDados then some resultado else none

end Eproc

namespace Esaj

/-- `BASE_1G` (src/scrapers/esaj.js:16). -/
def BASE1G : String := "https://esaj.tjms.jus.br/cpopg5"

/-- `BASE_2G` (src/scrapers/esaj.js:17). -/
def BASE2G : String := "https://esaj.tjms.jus.br/cposg5"

/-- The first-instance search URL (src/scrapers/esaj.js:287-296).
`URLSearchParams` keeps insertion order and leaves digits, `-` and `.`
unescaped, so the query string is reproduced literally. -/
def searchUrl1G (parsed : ParsedCNJ) : String :=
  BASE1G ++ "/search.do?conversationId=&dadosConsulta.localPesquisa.cdLocal=-1&cbPesquisa=NUMPROC&dadosConsulta.tipoNuProcesso=UNIFICADO&numeroDigitoAnoUnificado=" ++
    parsed.numeroDigitoAno ++ "&foroNumeroUnificado=" ++ parsed.foro ++
    "&dadosConsulta.valorConsultaNuUnificado=" ++ parsed.completo ++
    "&dadosConsulta.valorConsulta="

/-- The second-instance search URL (src/scrapers/esaj.js:325-334). -/
def searchUrl2G (parsed : ParsedCNJ) : String :=
  BASE2G ++ "/search.do?conversationId=&paginaConsulta=0&cbPesquisa=NUMPROC&tipoNuProcesso=UNIFICADO&numeroDigitoAnoUnificado=" ++
    parsed.numeroDigitoAno ++ "&foroNumeroUnificado=" ++ parsed.foro ++
    "&dePesquisaNuUnificado=" ++ parsed.completo ++ "&dePesquisa="

/-- The detail-page URL a redirect is followed to
(src/scrapers/esaj.js:307-309). -/
def showUrl (base link : String) : String :=
  if isPrefixList "http".data link.data then link else base ++ "/" ++ link

/-- Shared body of `consultarPrimeiroGrau`/`consultarSegundoGrau`
(src/scrapers/esaj.js:283-317 and 322-354): fetch the search page, parse
it, and when the parse produced a `{ redirect }` object fetch the linked
detail page once and parse again. The second parse's value — whatever
its shape — is returned. There is no `try/catch`: every fetch failure
propagates to the caller. `fetch url` stands for
`fetchComRetry(url).text()`. -/
def consulta (base searchUrl grau : String)
    (fetch : String → Except JsError Page) : Except JsError ParseResult :=
  match fetch searchUrl with
  | .error e => .error e
  | .ok page1 =>
    match parseProcessoHTML page1 grau with
    | .redirect link =>
      match fetch (showUrl base link) with
      | .error e => .error e
      | .ok page2 => .ok (parseProcessoHTML page2 grau)
    | r => .ok r

/-- `consultarPrimeiroGrau` (src/scrapers/esaj.js:283-317). -/
def consultarPrimeiroGrau (fetch : String → Except JsError Page)
    (numeroCNJ : String) : Except JsError ParseResult :=
  match parseNumeroCNJ numeroCNJ with
  | .error e => .error e
  | .ok parsed => consulta BASE1G (searchUrl1G parsed) "1º Grau" fetch

/-- `consultarSegundoGrau` (src/scrapers/esaj.js:322-354). -/
def consultarSegundoGrau (fetch : String → Except JsError Page)
    (numeroCNJ : String) : Except JsError ParseResult :=
  match parseNumeroCNJ numeroCNJ with
  | .error e => .error e
  | .ok parsed => consulta BASE2G (searchUrl2G parsed) "2º Grau" fetch

end Esaj

namespace Eproc

/-- `EPROC_1G` default (src/scrapers/eproc.js:21). -/
def EPROC1G : String := "https://eproc1g.tjms.jus.br/eproc"

/-- `EPROC_2G` default (src/scrapers/eproc.js:22). -/
def EPROC2G : String := "https://eproc2g.tjms.jus.br/eproc"

/-- The public-lookup URL (src/scrapers/eproc.js:244). -/
def consultaUrl (base : String) : String :=
  base ++ "/externo_controlador.php?acao=processo_consulta_publica"

/-- The POST body (src/scrapers/eproc.js:255-258). -/
def consultaBody (numeroFormatado : String) : String :=
  "txtNumProcesso=" ++ numeroFormatado ++ "&hdnTipoConsulta=publica"

/-- Shared body of the eproc `consultarPrimeiroGrau`/`consultarSegundoGrau`
(src/scrapers/eproc.js:240-271 and 276-304): format the number (outside
the `try`, so its failure propagates), POST the lookup, parse. The
`catch` downgrades any error whose message contains `ENOTFOUND`,
`ECONNREFUSED` or `Timeout` to a `null` result and rethrows the rest.
`fetch url body` stands for `fetchComRetry(url, { method: POST, body }).text()`. -/
def consultarGrau (base grau : String)
    (fetch : String → String → Except JsError Page)
    (numeroCNJ : String) : Except JsError (Option Record) :=
  match formatarNumeroEproc numeroCNJ with
  | .error e => .error e
  | .ok numeroFormatado =>
    match fetch (consultaUrl base) (consultaBody numeroFormatado) with
    | .ok page => .ok (parseEprocHTML page grau)
    | .error e =>
      if isConnectivityMsg e.message then .ok none else .error e

/-- `consultarPrimeiroGrau` (src/scrapers/eproc.js:240-271). -/
def consultarPrimeiroGrau (fetch : String → String → Except JsError Page)
    (numeroCNJ : String) : Except JsError (Option Record) :=
  consultarGrau EPROC1G "1º Grau" fetch numeroCNJ

/-- `consultarSegundoGrau` (src/scrapers/eproc.js:276-304). -/
def consultarSegundoGrau (fetch : String → String → Except JsError Page)
    (numeroCNJ : String) : Except JsError (Option Record) :=
  consultarGrau EPROC2G "2º Grau" fetch numeroCNJ

end Eproc

namespace Server

/-- `classe` object of a DataJud hit (`{ nome, codigo }`). -/
structure DatajudClasse where
  nome : String := ""
  codigo : Nat := 0
deriving DecidableEq, Repr

/-- one element of `assuntos` (`{ nome, codigo }`). -/
structure DatajudAssunto where
  nome : String := ""
  codigo : Nat := 0
deriving DecidableEq, Repr

/-- one element of `complementosTabelados` (`{ nome, descricao, valor }`). -/
structure DatajudComplemento where
  nome : String := ""
  descricao : String := ""
  valor : String := ""
deriving DecidableEq, Repr

/-- one element of `movimentos` (`{ dataHora, nome, codigo,
complementosTabelados }`); an empty string models an absent `dataHora`. -/
structure DatajudMov where
  dataHora : String := ""
  nome : String := ""
  codigo : Nat := 0
  complementosTabelados : Option (List DatajudComplemento) := none
deriving DecidableEq, Repr

/-- a DataJud `_source` record, restricted to the fields
`mergeResultados` (src/server.js:154-199) reads. `none`/empty-string
fields model absent JSON members. -/
structure DatajudProc where
  numeroProcesso : String := ""
  classe : Option DatajudClasse := none
  assuntos : Option (List DatajudAssunto) := none
  orgaoJulgador : Option String := none
  grau : String := ""
  formato : Option String := none
  nivelSigilo : Option Int := none
  dataAjuizamento : String := ""
  dataHoraUltimaAtualizacao : String := ""
  movimentos : Option (List DatajudMov) := none
deriving DecidableEq, Repr

/-- `datajud.consultar`'s successful value: `{ total, processos }`. -/
structure DatajudResult where
  total : Nat := 0
  processos : List DatajudProc := []
deriving DecidableEq, Repr

/-- `esaj.consultarAmbosGraus`'s value as `mergeResultados` consumes it:
the per-instance results (each `null`, a `{ redirect }` object, or a
record; rejected promises were already replaced by `null`, which
`Esaj.ParseResult.noRecord` also covers). -/
structure EsajAmbos where
  primeiroGrau : Esaj.ParseResult := .noRecord
  segundoGrau : Esaj.ParseResult := .noRecord
deriving DecidableEq, Repr

/-- `eproc.consultarAmbosGraus`'s value as `mergeResultados` consumes it. -/
structure EprocAmbos where
  primeiroGrau : Option Eproc.Record := none
  segundoGrau : Option Eproc.Record := none
deriving DecidableEq, Repr

/-- a unified movement entry `{ data, descricao, complementos, fonte }`. -/
structure UnifiedMov where
  data : String
  descricao : String
  complementos : List String
  fonte : String
deriving DecidableEq, Repr

/-- the `fontes` provenance map (src/server.js:184-190). -/
structure Fontes where
  datajud : Bool
  esaj1g : Bool
  esaj2g : Bool
  eproc1g : Bool
  eproc2g : Bool
deriving DecidableEq, Repr

/-- the optional `segundoGrau` sub-record (src/server.js:192-197). -/
structure SegundoGrauSec where
  classe : String
  assunto : String
  movimentacoes : List Mov
  partes : List Parte
deriving DecidableEq, Repr

/-- the unified record `mergeResultados` returns (src/server.js:161-198). -/
structure Unificado where
  numero : String
  classe : String
  classeCodigoCNJ : Option Nat
  area : String
  assuntos : List String
  assuntoPrincipal : String
  orgaoJulgador : String
  juiz : String
  distribuicao : String
  valorAcao : String
  grau : String
  formato : String
  nivelSigilo : Option Int
  situacao : String
  dataUltimaAtualizacao : String
  partes : List Parte
  movimentacoes : List UnifiedMov
  fontes : Fontes
  segundoGrau : Option SegundoGrauSec
deriving DecidableEq, Repr

/-- Stable insertion of `a` into `l`: `a` goes before the first element
`b` with `le a b`. -/
def jsOrderedInsert (le : α → α → Bool) (a : α) : List α → List α
  | [] => [a]
  | b :: l => if le a b then a :: b :: l else b :: jsOrderedInsert le a l

/-- A stable sort. `Array.prototype.sort` is required by ECMA-262 to be
stable, and for a consistent comparator every stable sort produces the
same list, so `sort(cmp)` is modelled as a stable insertion sort with
`le a b := cmp(a, b) ≤ 0` ("`a` may stay before `b`"). -/
def jsStableSort (le : α → α → Bool) : List α → List α
  | [] => []
  | a :: l => jsOrderedInsert le a (jsStableSort le l)

/-- The timestamp `new Date(m.dataHora || 0).getTime()` of a DataJud
movement: an absent (empty) `dataHora` is coerced to the number `0`,
hence the epoch; otherwise the date-string parse, `none` standing for an
invalid date (`NaN`). `parseDate` is the `new Date` environment. -/
def jsDateOf (parseDate : String → Option Int) (m : DatajudMov) : Option Int :=
  if m.dataHora = "" then some 0 else parseDate m.dataHora

/-- The comparator `new Date(b.dataHora || 0) - new Date(a.dataHora || 0)`
(src/server.js:211). When either side is `NaN` the subtraction is `NaN`,
which ECMA-262's SortCompare treats as neither positive nor negative —
i.e. as a tie, modelled by `0`. -/
def jsDateCmp (parseDate : String → Option Int) (a b : DatajudMov) : Int :=
  match jsDateOf parseDate b, jsDateOf parseDate a with
  | some x, some y => x - y
  | _, _ => 0

/-- The `.map` step of the DataJud branch (src/server.js:212-217). -/
def mapDatajudMov (m : DatajudMov) : UnifiedMov :=
  { data := m.dataHora,
    descricao := jsOr m.nome (if m.codigo ≠ 0 then toString m.codigo else ""),
    complementos := ((m.complementosTabelados.getD []).map
      (fun c => jsOr c.nome (jsOr c.descricao c.valor))).filter (· != ""),
    fonte := "datajud" }

/-- `mergeMovs` (src/server.js:208-222): a non-empty DataJud list is
sorted by the date comparator and mapped; otherwise the eSAJ list is
passed through with `complementos: []` and `fonte: 'esaj'`; otherwise
the eproc list likewise; otherwise `[]`. `none` models an `undefined`
argument. -/
def mergeMovs (parseDate : String → Option Int)
    (datajudMovs : Option (List DatajudMov))
    (esajMovs eprocMovs : Option (List Mov)) : List UnifiedMov :=
  let dj := datajudMovs.getD []
  if dj ≠ [] then
    (jsStableSort (fun a b => jsDateCmp parseDate a b ≤ 0) dj).map mapDatajudMov
  else
    let es := esajMovs.getD []
    if es ≠ [] then
      es.map (fun m => { data := m.data, descricao := m.descricao,
                         complementos := [], fonte := "esaj" })
    else
      let ep := eprocMovs.getD []
      if ep ≠ [] then
        ep.map (fun m => { data := m.data, descricao := m.descricao,
                           complementos := [], fonte := "eproc" })
      else []

/-- `primeiroNaoVazio` (src/server.js:201-206): the first argument that
is defined and non-empty, else `[]`. -/
def primeiroNaoVazio : List (Option (List α)) → List α
  | [] => []
  | l :: rest =>
    match l with
    | some xs => if xs.length > 0 then xs else primeiroNaoVazio rest
    | none => primeiroNaoVazio rest

/-- `o?.f || ''` — read a string field through a possibly-null object. -/
def optStr (o : Option α) (f : α → String) : String :=
  match o with
  | some x => f x
  | none => ""

/-- `proc.assuntos?.[0]?.nome || ''`. -/
def headAssuntoNome (assuntos : Option (List DatajudAssunto)) : String :=
  match assuntos with
  | some (a :: _) => a.nome
  | _ => ""

/-- `a || b || []` on two possibly-undefined arrays: the first *defined*
array wins even when it is empty (an empty array is truthy in
JavaScript). -/
def jsOrArr (a b : Option (List α)) : List α :=
  match a with
  | some l => l
  | none => b.getD []

/-- The `|| {}` read view of an eSAJ per-instance value: only a `record`
exposes the scraped fields; `null` and `{ redirect }` read as an object
without them. -/
def esajFields : Esaj.ParseResult → Option Esaj.Record
  | .record r => some r
  | _ => none

/-- `mergeResultados` (src/server.js:154-199), with the `new Date`
environment passed explicitly for the movement sort. -/
def mergeResultados (parseDate : String → Option Int)
    (dadosDatajud : Option DatajudResult)
    (dadosEsaj : Option EsajAmbos)
    (dadosEproc : Option EprocAmbos) : Unificado :=
  let proc : DatajudProc := (dadosDatajud.bind (·.processos.head?)).getD {}
  let e1 : Option Esaj.Record := dadosEsaj.bind (fun d => esajFields d.primeiroGrau)
  let e2 : Option Esaj.Record := dadosEsaj.bind (fun d => esajFields d.segundoGrau)
  let ep1 : Option Eproc.Record := dadosEproc.bind (·.primeiroGrau)
  let ep2 : Option Eproc.Record := dadosEproc.bind (·.segundoGrau)
  { numero := proc.numeroProcesso,
    classe := jsOr (optStr proc.classe (·.nome))
      (jsOr (optStr e1 (·.classe)) (optStr ep1 (·.classe))),
    classeCodigoCNJ :=
      match proc.classe with
      | some c => if c.codigo ≠ 0 then some c.codigo else none
      | none => none,
    area := jsOr (optStr e1 (·.area)) (optStr ep1 (·.area)),
    assuntos := (proc.assuntos.getD []).map
      (fun a => jsOr a.nome (if a.codigo ≠ 0 then toString a.codigo else "")),
    assuntoPrincipal := jsOr (optStr e1 (·.assunto))
      (jsOr (optStr ep1 (·.assunto)) (headAssuntoNome proc.assuntos)),
    orgaoJulgador := jsOr (optStr proc.orgaoJulgador id)
      (optStr ep1 (·.orgaoJulgador)),
    juiz := jsOr (optStr e1 (·.juiz)) (optStr ep1 (·.juiz)),
    distribuicao := jsOr (optStr e1 (·.distribuicao))
      (jsOr (optStr ep1 (·.distribuicao)) proc.dataAjuizamento),
    valorAcao := optStr e1 (·.valorAcao),
    grau := jsOr proc.grau (jsOr (optStr e1 (·.grau)) (optStr ep1 (·.grau))),
    formato := optStr proc.formato id,
    nivelSigilo := proc.nivelSigilo,
    situacao := optStr ep1 (·.situacao),
    dataUltimaAtualizacao := proc.dataHoraUltimaAtualizacao,
    partes := primeiroNaoVazio
      [e1.map (·.partes), ep1.map (·.partes),
       e2.map (·.partes), ep2.map (·.partes)],
    movimentacoes := mergeMovs parseDate proc.movimentos
      (e1.map (·.movimentacoes)) (ep1.map (·.movimentacoes)),
    fontes :=
      { datajud := match dadosDatajud with
          | some d => d.total ≠ 0
          | none => false,
        esaj1g := match dadosEsaj with
          | some d => d.primeiroGrau.isTruthy
          | none => false,
        esaj2g := match dadosEsaj with
          | some d => d.segundoGrau.isTruthy
          | none => false,
        eproc1g := match dadosEproc with
          | some d => d.primeiroGrau.isSome
          | none => false,
        eproc2g := match dadosEproc with
          | some d => d.segundoGrau.isSome
          | none => false },
    segundoGrau :=
      if jsOr (optStr e2 (·.classe)) (optStr ep2 (·.classe)) ≠ "" then
        some { classe := jsOr (optStr e2 (·.classe)) (optStr ep2 (·.classe)),
               assunto := jsOr (optStr e2 (·.assunto)) (optStr ep2 (·.assunto)),
               movimentacoes := jsOrArr (e2.map (·.movimentacoes))
                 (ep2.map (·.movimentacoes)),
               partes := jsOrArr (e2.map (·.partes)) (ep2.map (·.partes)) }
      else none }

end Server

/-- Days from the civil epoch 1970-01-01 to year-month-day (proleptic
Gregorian), by the standard era/year-of-era decomposition; `y ≥ 1` is
assumed (four-digit years in practice). -/
def daysFromCivil (y m d : Nat) : Int :=
  let yAdj := if m ≤ 2 then y - 1 else y
  let era := yAdj / 400
  let yoe := yAdj % 400
  let mp := if m > 2 then m - 3 else m + 9
  let doy := (153 * mp + 2) / 5 + d - 1
  let doe := yoe * 365 + yoe / 4 - yoe / 100 + doy
  (era * 146097 + doe : Int) - 719468

/-- Modelled from the environment: `new Date(s).getTime()` for date-only
ISO strings `YYYY-MM-DD`, which ECMA-262 reads as UTC midnight. Other
formats conservatively map to `none` (an invalid date); the model is
only evaluated at date-only strings. -/
def parseDateISO (s : String) : Option Int :=
  match splitOnList ['-'] s.data with
  | [ys, ms, ds] =>
    match charsToNat? ys, charsToNat? ms, charsToNat? ds with
    | some y, some m, some d =>
      if ys.length = 4 ∧ ms.length = 2 ∧ ds.length = 2 ∧
          1 ≤ m ∧ m ≤ 12 ∧ 1 ≤ d ∧ d ≤ 31 then
        some (86400000 * daysFromCivil y m d)
      else none
    | _, _, _ => none
  | _ => none

namespace Spec

/-- Modelled from the spec's words, for comparison with `Server.mergeMovs`
(the claim C2 / spec §4.6 policy): a non-empty structured list is used
"sorted by parsed date descending (unparseable/missing dates sort after
all parseable dates, stably, in original order)"; otherwise portal-A's
list as scraped tagged `esaj`; otherwise portal-B's; otherwise `[]`. -/
def claimedMergeMovs (parseDate : String → Option Int)
    (datajudMovs : Option (List Server.DatajudMov))
    (esajMovs eprocMovs : Option (List Mov)) : List Server.UnifiedMov :=
  let dj := datajudMovs.getD []
  if dj ≠ [] then
    let parseable := dj.filter (fun m => (parseDate m.dataHora).isSome)
    let rest := dj.filter (fun m => ¬ (parseDate m.dataHora).isSome)
    ((Server.jsStableSort
        (fun a b => (parseDate b.dataHora).getD 0 ≤ (parseDate a.dataHora).getD 0)
        parseable) ++ rest).map Server.mapDatajudMov
  else
    let es := esajMovs.getD []
    if es ≠ [] then
      es.map (fun m => { data := m.data, descricao := m.descricao,
                         complementos := [], fonte := "esaj" })
    else
      let ep := eprocMovs.getD []
      if ep ≠ [] then
        ep.map (fun m => { data := m.data, descricao := m.descricao,
                           complementos := [], fonte := "eproc" })
      else []

/-- Modelled from the spec's words (claim C3 / spec §4.6): per-field
precedence "structured-API value, else first-instance portal-A value,
else first-instance portal-B value". -/
def claimedFieldPrecedence (datajudVal esajVal eprocVal : String) : String :=
  firstNonEmpty [datajudVal, esajVal, eprocVal]

/-- A record an eSAJ extraction produced "contributed at least one
non-empty field or list" (claim C9's reading, over the classification
fields of the spec's data model plus the two lists; the constant origin
and instance tags are not data). -/
def esajRecordHasData (r : Esaj.Record) : Prop :=
  r.classe ≠ "" ∨ r.area ≠ "" ∨ r.assunto ≠ "" ∨ r.distribuicao ≠ "" ∨
    r.juiz ≠ "" ∨ r.valorAcao ≠ "" ∨ r.numero ≠ "" ∨ r.partes ≠ [] ∨
    r.movimentacoes ≠ []

instance (r : Esaj.Record) : Decidable (esajRecordHasData r) := by
  unfold esajRecordHasData; infer_instance

end Spec

/-! ### Helper lemmas -/

theorem jsOr_eq_firstNonEmpty2 (a b : String) :
    jsOr a b = firstNonEmpty [a, b] := by
  simp only [jsOr, firstNonEmpty]
  split_ifs <;> simp_all

theorem jsOr_eq_firstNonEmpty3 (a b c : String) :
    jsOr a (jsOr b c) = firstNonEmpty [a, b, c] := by
  simp only [jsOr, firstNonEmpty]
  split_ifs <;> simp_all

namespace Server

theorem mem_jsOrderedInsert {le : α → α → Bool} {a x : α} {l : List α} :
    x ∈ jsOrderedInsert le a l ↔ x = a ∨ x ∈ l := by
  induction l with
  | nil => simp [jsOrderedInsert]
  | cons b l ih =>
    simp only [jsOrderedInsert]
    split
    · simp [or_comm, or_left_comm]
    · simp [ih, or_comm, or_left_comm]

theorem mem_jsStableSort {le : α → α → Bool} {x : α} {l : List α} :
    x ∈ jsStableSort le l ↔ x ∈ l := by
  induction l with
  | nil => simp [jsStableSort]
  | cons a l ih =>
    simp [jsStableSort, mem_jsOrderedInsert, ih]

theorem jsOrderedInsert_congr {le₁ le₂ : α → α → Bool} {a : α} {l : List α}
    (h : ∀ y ∈ l, le₁ a y = le₂ a y) :
    jsOrderedInsert le₁ a l = jsOrderedInsert le₂ a l := by
  induction l with
  | nil => rfl
  | cons b l ih =>
    simp only [jsOrderedInsert]
    rw [h b (by simp)]
    split
    · rfl
    · rw [ih (fun y hy => h y (by simp [hy]))]

theorem jsStableSort_congr {le₁ le₂ : α → α → Bool} {l : List α}
    (h : ∀ x ∈ l, ∀ y ∈ l, le₁ x y = le₂ x y) :
    jsStableSort le₁ l = jsStableSort le₂ l := by
  induction l with
  | nil => rfl
  | cons a l ih =>
    simp only [jsStableSort]
    rw [ih (fun x hx y hy => h x (by simp [hx]) y (by simp [hy]))]
    exact jsOrderedInsert_congr fun y hy =>
      h a (by simp) y (by simp [mem_jsStableSort.mp hy])

end Server

theorem esajParseResult_isTruthy_iff (r : Esaj.ParseResult) :
    r.isTruthy = true ↔ r ≠ .noRecord := by
  cases r <;> simp [Esaj.ParseResult.isTruthy]

/-! ### Claims -/

/-- C1 (counterexample): the eSAJ extraction function, run on a page with
no "not found" sentinel, no results-list link and no extractable content,
returns a `SourceRecord` whose classification fields are all empty and
whose party and movement lists are both empty — not the no-record signal
`null` that the claim requires of every portal extraction function. -/
theorem c1_counterexample :
    Esaj.parseProcessoHTML {} "1º Grau" =
      .record { fonte := "esaj", grau := "1º Grau", classe := "", area := "",
                assunto := "", distribuicao := "", juiz := "", valorAcao := "",
                numero := "", partes := [], movimentacoes := [] } ∧
    Esaj.ParseResult.record { fonte := "esaj", grau := "1º Grau" } ≠
      Esaj.ParseResult.noRecord := by
  exact ⟨by decide, by decide⟩

/-- C1 (amended): the eproc extraction function never returns a record
whose `classe`, `assunto`, party list and movement list are all empty —
its `temDados` gate reports no-record instead. In particular a record
with every classification field empty and both lists empty is never
returned. The eSAJ extraction function has no such gate (see the
counterexample). -/
theorem c1_eproc_never_empty (page : Eproc.Page) (grau : String)
    (r : Eproc.Record) (h : Eproc.parseEprocHTML page grau = some r) :
    r.classe ≠ "" ∨ r.assunto ≠ "" ∨ r.partes ≠ [] ∨ r.movimentacoes ≠ [] := by
  simp only [Eproc.parseEprocHTML] at h
  split at h
  · exact absurd h (by simp)
  split at h
  · exact absurd h (by simp)
  split at h <;>
    (split at h
     next htem =>
       rw [Option.some.injEq] at h
       subst h
       exact htem
     next => exact absurd h (by simp))

/-- A one-label eproc page, used to witness the amended C1 theorem. -/
def eprocPageClasse : Eproc.Page :=
  { labelPairs := [("Classe", "Procedimento Comum")] }

/-- The record `parseEprocHTML` extracts from `eprocPageClasse`. -/
def eprocRecordClasse : Eproc.Record :=
  { fonte := "eproc", grau := "1º Grau", classe := "Procedimento Comum" }

/-- C1 (witness): a page carrying one `Classe` label yields a record, and
the amended theorem applies to it. -/
theorem c1_witness :
    Eproc.parseEprocHTML eprocPageClasse "1º Grau" = some eprocRecordClasse ∧
    (eprocRecordClasse.classe ≠ "" ∨ eprocRecordClasse.assunto ≠ "" ∨
      eprocRecordClasse.partes ≠ [] ∨ eprocRecordClasse.movimentacoes ≠ []) :=
  ⟨by decide, c1_eproc_never_empty eprocPageClasse "1º Grau" eprocRecordClasse (by decide)⟩

/-- C2 (counterexample input): a structured movement without a date
followed by one dated before the epoch. -/
def djMovsPre1970 : List Server.DatajudMov :=
  [{ dataHora := "", nome := "m1" }, { dataHora := "1960-01-01", nome := "m2" }]

/-- C2 (counterexample): on a structured list holding a missing-date
event and a pre-epoch 1960 event, the merge keeps the missing-date event
first — `dataHora || 0` coerces a missing date to the epoch timestamp 0,
which sorts *among* the parseable dates in the descending order, not
after them as the claim's policy requires (the claimed policy is the
`Spec.claimedMergeMovs` rendering of the spec text). -/
theorem c2_counterexample :
    Server.mergeMovs parseDateISO (some djMovsPre1970) (some []) (some []) =
      [{ data := "", descricao := "m1", complementos := [], fonte := "datajud" },
       { data := "1960-01-01", descricao := "m2", complementos := [], fonte := "datajud" }] ∧
    Spec.claimedMergeMovs parseDateISO (some djMovsPre1970) (some []) (some []) =
      [{ data := "1960-01-01", descricao := "m2", complementos := [], fonte := "datajud" },
       { data := "", descricao := "m1", complementos := [], fonte := "datajud" }] ∧
    Server.mergeMovs parseDateISO (some djMovsPre1970) (some []) (some []) ≠
      Spec.claimedMergeMovs parseDateISO (some djMovsPre1970) (some []) (some []) :=
  ⟨by decide, by decide, by decide⟩

/-- C2 (amended): when every structured event's date is either missing
(treated as the epoch timestamp 0) or parseable, the merged timeline on a
non-empty structured list is that list stably sorted descending by that
epoch-defaulted timestamp and mapped with the `datajud` tag — missing
dates sort at the epoch, *among* parseable dates, not after them;
otherwise the eSAJ list passes through unchanged tagged `esaj`;
otherwise the eproc list tagged `eproc`; otherwise the result is empty.
(Lists containing an unparseable, non-missing date are excluded: there
the comparator returns `NaN` and ECMA-262 leaves the order
implementation-defined.) -/
theorem c2_amended (parseDate : String → Option Int)
    (dj : List Server.DatajudMov) (es ep : List Mov)
    (hdj : ∀ m ∈ dj, (Server.jsDateOf parseDate m).isSome) :
    (dj ≠ [] → Server.mergeMovs parseDate (some dj) (some es) (some ep) =
      (Server.jsStableSort (fun a b =>
          decide ((Server.jsDateOf parseDate b).getD 0 ≤
            (Server.jsDateOf parseDate a).getD 0)) dj).map Server.mapDatajudMov) ∧
    (dj = [] → es ≠ [] → Server.mergeMovs parseDate (some dj) (some es) (some ep) =
      es.map (fun m => { data := m.data, descricao := m.descricao,
                         complementos := [], fonte := "esaj" })) ∧
    (dj = [] → es = [] → ep ≠ [] →
      Server.mergeMovs parseDate (some dj) (some es) (some ep) =
        ep.map (fun m => { data := m.data, descricao := m.descricao,
                           complementos := [], fonte := "eproc" })) ∧
    (dj = [] → es = [] → ep = [] →
      Server.mergeMovs parseDate (some dj) (some es) (some ep) = []) := by
  refine ⟨?_, ?_, ?_, ?_⟩
  · intro hne
    simp only [Server.mergeMovs, Option.getD_some]
    rw [if_pos hne]
    congr 1
    apply Server.jsStableSort_congr
    intro x hx y hy
    obtain ⟨vx, hvx⟩ := Option.isSome_iff_exists.mp (hdj x hx)
    obtain ⟨vy, hvy⟩ := Option.isSome_iff_exists.mp (hdj y hy)
    simp [Server.jsDateCmp, hvx, hvy, sub_nonpos]
  · intro h1 h2
    simp only [Server.mergeMovs, Option.getD_some]
    rw [if_neg (by simp [h1]), if_pos h2]
  · intro h1 h2 h3
    simp only [Server.mergeMovs, Option.getD_some]
    rw [if_neg (by simp [h1]), if_neg (by simp [h2]), if_pos h3]
  · intro h1 h2 h3
    simp only [Server.mergeMovs, Option.getD_some]
    rw [if_neg (by simp [h1]), if_neg (by simp [h2]), if_neg (by simp [h3])]

/-- C2 (witness): a one-event structured list with a parseable date. -/
theorem c2_witness :
    Server.mergeMovs parseDateISO (some [{ dataHora := "2020-06-15", nome := "a" }])
        (some []) (some []) =
      (Server.jsStableSort (fun a b =>
          decide ((Server.jsDateOf parseDateISO b).getD 0 ≤
            (Server.jsDateOf parseDateISO a).getD 0))
        [{ dataHora := "2020-06-15", nome := "a" }]).map Server.mapDatajudMov :=
  (c2_amended parseDateISO [{ dataHora := "2020-06-15", nome := "a" }] [] []
    (by decide)).1 (by decide)

namespace Server

/-- `dadosDatajud?.processos?.[0] || {}` — the structured hit the merge
reads. -/
def srcDatajudProc (dd : Option DatajudResult) : DatajudProc :=
  (dd.bind (·.processos.head?)).getD {}

/-- the structured class value `proc.classe?.nome || ''`. -/
def srcDatajudClasse (dd : Option DatajudResult) : String :=
  optStr (srcDatajudProc dd).classe (·.nome)

/-- the structured subject value `proc.assuntos?.[0]?.nome || ''`. -/
def srcDatajudAssunto (dd : Option DatajudResult) : String :=
  headAssuntoNome (srcDatajudProc dd).assuntos

/-- the structured deciding-body value `proc.orgaoJulgador?.nome || ''`. -/
def srcDatajudOrgao (dd : Option DatajudResult) : String :=
  optStr (srcDatajudProc dd).orgaoJulgador id

/-- the structured distribution-date value `proc.dataAjuizamento || ''`. -/
def srcDatajudDataAjuizamento (dd : Option DatajudResult) : String :=
  (srcDatajudProc dd).dataAjuizamento

/-- the first-instance eSAJ record the merge reads. -/
def srcEsaj1 (de : Option EsajAmbos) : Option Esaj.Record :=
  de.bind (fun d => esajFields d.primeiroGrau)

/-- first-instance eSAJ field values. -/
def srcEsajClasse (de : Option EsajAmbos) : String :=
  optStr (srcEsaj1 de) (·.classe)

def srcEsajArea (de : Option EsajAmbos) : String :=
  optStr (srcEsaj1 de) (·.area)

def srcEsajAssunto (de : Option EsajAmbos) : String :=
  optStr (srcEsaj1 de) (·.assunto)

def srcEsajDistribuicao (de : Option EsajAmbos) : String :=
  optStr (srcEsaj1 de) (·.distribuicao)

/-- the first-instance eproc record the merge reads. -/
def srcEproc1 (dp : Option EprocAmbos) : Option Eproc.Record :=
  dp.bind (·.primeiroGrau)

/-- first-instance eproc field values. -/
def srcEprocClasse (dp : Option EprocAmbos) : String :=
  optStr (srcEproc1 dp) (·.classe)

def srcEprocArea (dp : Option EprocAmbos) : String :=
  optStr (srcEproc1 dp) (·.area)

def srcEprocAssunto (dp : Option EprocAmbos) : String :=
  optStr (srcEproc1 dp) (·.assunto)

def srcEprocOrgao (dp : Option EprocAmbos) : String :=
  optStr (srcEproc1 dp) (·.orgaoJulgador)

def srcEprocDistribuicao (dp : Option EprocAmbos) : String :=
  optStr (srcEproc1 dp) (·.distribuicao)

end Server

/-- C3 (amended): the five classification fields each follow a fixed
"first non-empty of an ordered candidate list" precedence, but the lists
are not uniformly structured-first: `classe` is structured, then eSAJ,
then eproc (as claimed); `area` is eSAJ then eproc (the structured API
carries no area); `orgaoJulgador` is structured then eproc (the eSAJ
extractor has no deciding-body field); and `assuntoPrincipal` and
`distribuicao` put both portals *before* the structured value. -/
theorem c3_amended (parseDate : String → Option Int)
    (dd : Option Server.DatajudResult) (de : Option Server.EsajAmbos)
    (dp : Option Server.EprocAmbos) :
    (Server.mergeResultados parseDate dd de dp).classe =
      firstNonEmpty [Server.srcDatajudClasse dd, Server.srcEsajClasse de,
        Server.srcEprocClasse dp] ∧
    (Server.mergeResultados parseDate dd de dp).area =
      firstNonEmpty [Server.srcEsajArea de, Server.srcEprocArea dp] ∧
    (Server.mergeResultados parseDate dd de dp).assuntoPrincipal =
      firstNonEmpty [Server.srcEsajAssunto de, Server.srcEprocAssunto dp,
        Server.srcDatajudAssunto dd] ∧
    (Server.mergeResultados parseDate dd de dp).orgaoJulgador =
      firstNonEmpty [Server.srcDatajudOrgao dd, Server.srcEprocOrgao dp] ∧
    (Server.mergeResultados parseDate dd de dp).distribuicao =
      firstNonEmpty [Server.srcEsajDistribuicao de, Server.srcEprocDistribuicao dp,
        Server.srcDatajudDataAjuizamento dd] := by
  refine ⟨?_, ?_, ?_, ?_, ?_⟩ <;>
    simp only [Server.mergeResultados, Server.srcDatajudProc,
      Server.srcDatajudClasse, Server.srcDatajudAssunto, Server.srcDatajudOrgao,
      Server.srcDatajudDataAjuizamento, Server.srcEsaj1, Server.srcEsajClasse,
      Server.srcEsajArea, Server.srcEsajAssunto, Server.srcEsajDistribuicao,
      Server.srcEproc1, Server.srcEprocClasse, Server.srcEprocArea,
      Server.srcEprocAssunto, Server.srcEprocOrgao, Server.srcEprocDistribuicao] <;>
    first
      | exact jsOr_eq_firstNonEmpty3 _ _ _
      | exact jsOr_eq_firstNonEmpty2 _ _

/-- C3 (counterexample input): a structured hit carrying a subject and a
filing date, and an eSAJ record carrying both too. -/
def ddSubject : Option Server.DatajudResult :=
  some { total := 1,
         processos := [{ assuntos := some [{ nome := "Assunto DataJud" }],
                         dataAjuizamento := "2020-01-01" }] }

/-- eSAJ side of the C3 counterexample. -/
def deSubject : Option Server.EsajAmbos :=
  some { primeiroGrau := .record { grau := "1º Grau", assunto := "Assunto eSAJ",
                                   distribuicao := "15/03/2020" },
         segundoGrau := .noRecord }

/-- C3 (counterexample): with both the structured API and eSAJ providing
a subject and a distribution date, the unified record takes the eSAJ
values — the claimed structured-first precedence would take the
structured ones. -/
theorem c3_counterexample :
    (Server.mergeResultados parseDateISO ddSubject deSubject none).assuntoPrincipal =
      "Assunto eSAJ" ∧
    Spec.claimedFieldPrecedence "Assunto DataJud" "Assunto eSAJ" "" =
      "Assunto DataJud" ∧
    (Server.mergeResultados parseDateISO ddSubject deSubject none).assuntoPrincipal ≠
      Spec.claimedFieldPrecedence "Assunto DataJud" "Assunto eSAJ" "" ∧
    (Server.mergeResultados parseDateISO ddSubject deSubject none).distribuicao =
      "15/03/2020" ∧
    (Server.mergeResultados parseDateISO ddSubject deSubject none).distribuicao ≠
      Spec.claimedFieldPrecedence "2020-01-01" "15/03/2020" "" :=
  ⟨by decide, by decide, by decide, by decide, by decide⟩

/-- C9 (amended): each provenance flag records only that the source
returned a non-null per-instance value (for the structured source, a
non-null result with a non-zero `total`) — not that the value
contributed any non-empty field or list. -/
theorem c9_amended (parseDate : String → Option Int)
    (dd : Option Server.DatajudResult) (de : Option Server.EsajAmbos)
    (dp : Option Server.EprocAmbos) :
    ((Server.mergeResultados parseDate dd de dp).fontes.datajud = true ↔
      (∃ d, dd = some d ∧ d.total ≠ 0)) ∧
    ((Server.mergeResultados parseDate dd de dp).fontes.esaj1g = true ↔
      (∃ d, de = some d ∧ d.primeiroGrau ≠ .noRecord)) ∧
    ((Server.mergeResultados parseDate dd de dp).fontes.esaj2g = true ↔
      (∃ d, de = some d ∧ d.segundoGrau ≠ .noRecord)) ∧
    ((Server.mergeResultados parseDate dd de dp).fontes.eproc1g = true ↔
      (∃ d, dp = some d ∧ d.primeiroGrau ≠ none)) ∧
    ((Server.mergeResultados parseDate dd de dp).fontes.eproc2g = true ↔
      (∃ d, dp = some d ∧ d.segundoGrau ≠ none)) := by
  cases dd <;> cases de <;> cases dp <;>
    simp [Server.mergeResultados, esajParseResult_isTruthy_iff,
      Option.isSome_iff_ne_none]

/-- C9 (counterexample input): an all-empty eSAJ first-instance record. -/
def esajEmptyRecord1G : Esaj.Record := { fonte := "esaj", grau := "1º Grau" }

/-- C9 (counterexample): a structured result with `total = 2` but no hit
records, and an eSAJ first-instance record with every classification
field empty and empty party/movement lists, both set their provenance
flags even though neither contributed any non-empty field or list. -/
theorem c9_counterexample :
    (Server.mergeResultados parseDateISO (some { total := 2, processos := [] })
        (some { primeiroGrau := .record esajEmptyRecord1G,
                segundoGrau := .noRecord }) none).fontes.datajud = true ∧
    (Server.mergeResultados parseDateISO (some { total := 2, processos := [] })
        (some { primeiroGrau := .record esajEmptyRecord1G,
                segundoGrau := .noRecord }) none).fontes.esaj1g = true ∧
    ({ total := 2, processos := [] } : Server.DatajudResult).processos = [] ∧
    ¬ Spec.esajRecordHasData esajEmptyRecord1G :=
  ⟨by decide, by decide, by decide, by decide⟩

/-- C4 (code bug): the resilient fetch retries after a 4xx response. With
the eSAJ budget (3 retries), a 404 on the first attempt followed by an OK
response succeeds on the second attempt — the 404 was retried, where the
claim requires immediate termination with an error; and three straight
404s only fail after all three attempts were consumed. Cause: the
`throw new Error(HTTP ...)` sits inside the `try`, so the same
iteration's `catch` swallows it and retries unless the attempt was the
last. -/
theorem c4_retry_on_4xx :
    fetchComRetry (fun i => if i = 0 then .status 404 "Not Found" else .ok)
        15000 3 = some (.ok 1) ∧
    fetchComRetry (fun _ => .status 404 "Not Found") 15000 3 =
      some (.error (.http 404 "Not Found")) := by
  exact ⟨rfl, rfl⟩

/-- C5 (counterexample): the eSAJ first-instance adapter has no
`try/catch` — a DNS-failure (`ENOTFOUND`, a connectivity-class error)
during its fetch propagates out of the adapter as an error rather than
being caught and turned into a null result as the claim requires of
every portal adapter. -/
theorem c5_counterexample :
    Esaj.consultarPrimeiroGrau
        (fun _ => .error (.transport "getaddrinfo ENOTFOUND esaj.tjms.jus.br"))
        "0800123-45.2023.8.12.0001" =
      .error (.transport "getaddrinfo ENOTFOUND esaj.tjms.jus.br") ∧
    isConnectivityMsg
      (JsError.transport "getaddrinfo ENOTFOUND esaj.tjms.jus.br").message = true :=
  ⟨rfl, by decide⟩

/-- C5 (amended): only the eproc adapters catch fetch failures, returning
null exactly when the error message contains `ENOTFOUND`, `ECONNREFUSED`
or `Timeout` and rethrowing otherwise; the eSAJ per-instance adapters
catch nothing — every fetch failure, connectivity-class included,
propagates to their caller. -/
theorem c5_amended (numero : String) (e : JsError)
    (h20 : (stripNonDigits numero).length = 20) :
    Eproc.consultarPrimeiroGrau (fun _ _ => .error e) numero =
      (if isConnectivityMsg e.message then .ok none else .error e) ∧
    Eproc.consultarSegundoGrau (fun _ _ => .error e) numero =
      (if isConnectivityMsg e.message then .ok none else .error e) ∧
    Esaj.consultarPrimeiroGrau (fun _ => .error e) numero = .error e ∧
    Esaj.consultarSegundoGrau (fun _ => .error e) numero = .error e := by
  have hne : ¬ (stripNonDigits numero).length ≠ 20 := by simp [h20]
  refine ⟨?_, ?_, ?_, ?_⟩
  · simp only [Eproc.consultarPrimeiroGrau, Eproc.consultarGrau, formatarNumeroEproc]
    rw [if_neg hne]
  · simp only [Eproc.consultarSegundoGrau, Eproc.consultarGrau, formatarNumeroEproc]
    rw [if_neg hne]
  · simp only [Esaj.consultarPrimeiroGrau, Esaj.consulta, parseNumeroCNJ]
    rw [if_neg hne]
  · simp only [Esaj.consultarSegundoGrau, Esaj.consulta, parseNumeroCNJ]
    rw [if_neg hne]

/-- C5 (witness): a concrete DNS failure — both eproc adapters downgrade
it to null, both eSAJ adapters propagate it. -/
theorem c5_witness :
    Eproc.consultarPrimeiroGrau
        (fun _ _ => .error (.transport "getaddrinfo ENOTFOUND eproc1g.tjms.jus.br"))
        "0800123-45.2023.8.12.0001" = .ok none ∧
    Eproc.consultarSegundoGrau
        (fun _ _ => .error (.transport "getaddrinfo ENOTFOUND eproc1g.tjms.jus.br"))
        "0800123-45.2023.8.12.0001" = .ok none ∧
    Esaj.consultarPrimeiroGrau
        (fun _ => .error (.transport "getaddrinfo ENOTFOUND eproc1g.tjms.jus.br"))
        "0800123-45.2023.8.12.0001" =
      .error (.transport "getaddrinfo ENOTFOUND eproc1g.tjms.jus.br") ∧
    Esaj.consultarSegundoGrau
        (fun _ => .error (.transport "getaddrinfo ENOTFOUND eproc1g.tjms.jus.br"))
        "0800123-45.2023.8.12.0001" =
      .error (.transport "getaddrinfo ENOTFOUND eproc1g.tjms.jus.br") := by
  have h := c5_amended "0800123-45.2023.8.12.0001"
    (.transport "getaddrinfo ENOTFOUND eproc1g.tjms.jus.br") (by decide)
  refine ⟨?_, ?_, h.2.2.1, h.2.2.2⟩
  · rw [h.1]; rfl
  · rw [h.2.1]; rfl

/-- C6 (counterexample): when the followed detail page again parses to a
redirect-target signal, the adapter returns that redirect object as its
overall result — not the no-record signal the claim requires. -/
theorem c6_counterexample :
    Esaj.consultarPrimeiroGrau (fun _ => .ok { linkProcesso := some "lista.do?x" })
        "0800123-45.2023.8.12.0001" = .ok (.redirect "lista.do?x") ∧
    Esaj.ParseResult.redirect "lista.do?x" ≠ Esaj.ParseResult.noRecord :=
  ⟨rfl, by decide⟩

/-- C6 (amended): when the first extraction yields a redirect-target
signal the adapter performs exactly one additional fetch of the linked
detail page and returns the second extraction's value unconditionally —
so a second redirect-target signal is not followed any further and
becomes the adapter's result (it is not converted to the no-record
signal). Stated for the shared per-instance body `Esaj.consulta`, which
both eSAJ adapters instantiate. -/
theorem c6_amended (base searchUrl grau : String)
    (fetch : String → Except JsError Esaj.Page)
    (page1 page2 : Esaj.Page) (link link2 : String)
    (h1 : fetch searchUrl = .ok page1)
    (h2 : Esaj.parseProcessoHTML page1 grau = .redirect link)
    (h3 : fetch (Esaj.showUrl base link) = .ok page2) :
    Esaj.consulta base searchUrl grau fetch =
      .ok (Esaj.parseProcessoHTML page2 grau) ∧
    (Esaj.parseProcessoHTML page2 grau = .redirect link2 →
      Esaj.consulta base searchUrl grau fetch = .ok (.redirect link2)) := by
  have hmain : Esaj.consulta base searchUrl grau fetch =
      .ok (Esaj.parseProcessoHTML page2 grau) := by
    simp only [Esaj.consulta, h1, h2, h3]
  exact ⟨hmain, fun h4 => by rw [hmain, h4]⟩

/-- C6 (witness): a concrete double-redirect run of the shared body. -/
theorem c6_witness :
    Esaj.consulta "B" "U" "1º Grau"
        (fun u => if u = "U" then .ok { linkProcesso := some "l1" }
                  else .ok { linkProcesso := some "l2" }) =
      .ok (.redirect "l2") :=
  (c6_amended "B" "U" "1º Grau"
    (fun u => if u = "U" then .ok { linkProcesso := some "l1" }
              else .ok { linkProcesso := some "l2" })
    { linkProcesso := some "l1" } { linkProcesso := some "l2" } "l1" "l2"
    rfl rfl rfl).2 rfl

/-- C8: any input whose digit count differs from 20 makes both
normalizers (`parseNumeroCNJ` and `formatarNumeroEproc`) fail with the
invalid-identifier error; neither ever returns a canonical identifier. -/
theorem c8_invalid (s : String) (h : (stripNonDigits s).length ≠ 20) :
    parseNumeroCNJ s = .error (.invalidNumero
      ("Número do processo inválido: esperado 20 dígitos, recebido " ++
        toString (stripNonDigits s).length)) ∧
    formatarNumeroEproc s = .error (.invalidNumero
      ("Número inválido: esperado 20 dígitos, recebido " ++
        toString (stripNonDigits s).length)) := by
  constructor
  · simp only [parseNumeroCNJ]
    rw [if_pos h]
  · simp only [formatarNumeroEproc]
    rw [if_pos h]

/-- C8 (witness): `"123"` has 3 digits and both normalizers reject it. -/
theorem c8_witness :
    (stripNonDigits "123").length ≠ 20 ∧
    (parseNumeroCNJ "123" = .error (.invalidNumero
      ("Número do processo inválido: esperado 20 dígitos, recebido " ++
        toString (stripNonDigits "123").length)) ∧
     formatarNumeroEproc "123" = .error (.invalidNumero
      ("Número inválido: esperado 20 dígitos, recebido " ++
        toString (stripNonDigits "123").length))) :=
  ⟨by decide, c8_invalid "123" (by decide)⟩

/-- The value `parseNumeroCNJ` returns on an input with exactly 20
digits (the else-branch of the digit-count check, written out). -/
def cnjParsed (s : String) : ParsedCNJ :=
  let limpo := stripNonDigits s
  { numeroDigitoAno := jsSubstring limpo 0 7 ++ "-" ++ jsSubstring limpo 7 9 ++
      "." ++ jsSubstring limpo 9 13,
    foro := jsSubstring limpo 16 20,
    completo := jsSubstring limpo 0 7 ++ "-" ++ jsSubstring limpo 7 9 ++ "." ++
      jsSubstring limpo 9 13 ++ "." ++ jsSubstring limpo 13 14 ++ "." ++
      jsSubstring limpo 14 16 ++ "." ++ jsSubstring limpo 16 20,
    j := jsSubstring limpo 13 14,
    tr := jsSubstring limpo 14 16 }

theorem filter_digit_slice (L : List Char) (hall : ∀ c ∈ L, c.isDigit = true)
    (a n : Nat) : ((L.drop a).take n).filter Char.isDigit = (L.drop a).take n :=
  List.filter_eq_self.mpr fun c hc =>
    hall c (List.drop_subset a L (List.take_subset n (L.drop a) hc))

theorem slice_concat_20 (L : List Char) (h : L.length = 20) :
    L.take 7 ++ ((L.drop 7).take 2 ++ ((L.drop 9).take 4 ++ ((L.drop 13).take 1 ++
      ((L.drop 14).take 2 ++ (L.drop 16).take 4)))) = L := by
  have h16 : (L.drop 16).take 4 = L.drop 16 :=
    List.take_of_length_le (by simp [h])
  have step : ∀ a n b, a + n = b →
      (L.drop a).take n ++ L.drop b = L.drop a := by
    intro a n b hb
    have h' := List.take_append_drop n (L.drop a)
    rwa [List.drop_drop, hb] at h'
  rw [h16, step 14 2 16 rfl, step 13 1 14 rfl, step 9 4 13 rfl,
    step 7 2 9 rfl]
  exact List.take_append_drop 7 L

theorem strip_completo (s : String) (h : (stripNonDigits s).length = 20) :
    stripNonDigits (cnjParsed s).completo = stripNonDigits s := by
  apply String.ext
  have hall : ∀ c ∈ s.data.filter Char.isDigit, c.isDigit = true :=
    fun c hc => (List.mem_filter.mp hc).2
  have hlen : (s.data.filter Char.isDigit).length = 20 := h
  have hmk : ∀ l : List Char, (String.mk l).data = l := fun _ => rfl
  have hdash : ("-" : String).data = ['-'] := rfl
  have hdot : ("." : String).data = ['.'] := rfl
  have hfdash : List.filter Char.isDigit ['-'] = [] := rfl
  have hfdot : List.filter Char.isDigit ['.'] = [] := rfl
  show ((cnjParsed s).completo.data).filter Char.isDigit = s.data.filter Char.isDigit
  simp only [cnjParsed, jsSubstring, stripNonDigits, String.data_append, hmk,
    hdash, hdot, List.filter_append, hfdash, hfdot, List.append_nil,
    List.nil_append]
  rw [filter_digit_slice _ hall 0 7, filter_digit_slice _ hall 7 2,
    filter_digit_slice _ hall 9 4, filter_digit_slice _ hall 13 1,
    filter_digit_slice _ hall 14 2, filter_digit_slice _ hall 16 4]
  simp only [List.drop_zero, List.append_assoc]
  exact slice_concat_20 _ hlen

theorem parseNumeroCNJ_ok_of_length (s : String)
    (h : (stripNonDigits s).length = 20) :
    parseNumeroCNJ s = .ok (cnjParsed s) := by
  simp only [parseNumeroCNJ, cnjParsed]
  rw [if_neg (by simp [h])]

theorem parseNumeroCNJ_strip_congr {a b : String}
    (hs : stripNonDigits a = stripNonDigits b) :
    parseNumeroCNJ a = parseNumeroCNJ b := by
  unfold parseNumeroCNJ
  rw [hs]

/-- C7: on any input with exactly 20 digits after stripping, the
normalizer succeeds, re-normalizing the canonical dashed string it
produces yields exactly the same parsed value, and the six CNJ segments
(sequence, check digits, year, segment, court, unit) of the re-stripped
canonical form coincide with those of the original input. -/
theorem c7_roundtrip (s : String) (h : (stripNonDigits s).length = 20) :
    parseNumeroCNJ s = .ok (cnjParsed s) ∧
    parseNumeroCNJ (cnjParsed s).completo = .ok (cnjParsed s) ∧
    cnjSegments (stripNonDigits (cnjParsed s).completo) =
      cnjSegments (stripNonDigits s) := by
  have hstrip := strip_completo s h
  have hok := parseNumeroCNJ_ok_of_length s h
  exact ⟨hok, (parseNumeroCNJ_strip_congr hstrip).trans hok, by rw [hstrip]⟩

/-- C7 (witness): the round trip at a concrete dashed 20-digit number. -/
theorem c7_witness :
    (stripNonDigits "0800123-45.2023.8.12.0001").length = 20 ∧
    (parseNumeroCNJ "0800123-45.2023.8.12.0001" =
        .ok (cnjParsed "0800123-45.2023.8.12.0001") ∧
     parseNumeroCNJ (cnjParsed "0800123-45.2023.8.12.0001").completo =
        .ok (cnjParsed "0800123-45.2023.8.12.0001") ∧
     cnjSegments (stripNonDigits (cnjParsed "0800123-45.2023.8.12.0001").completo) =
        cnjSegments (stripNonDigits "0800123-45.2023.8.12.0001")) :=
  ⟨by decide, c7_roundtrip "0800123-45.2023.8.12.0001" (by decide)⟩

/-- C10: with all three source results `null`, the merge returns (without
failing) the well-formed unified record whose string fields are all
empty, whose party and movement lists are empty, whose five provenance
flags are false, and whose second-instance section is `null` — for every
date-parsing environment. -/
theorem c10_total_on_null (parseDate : String → Option Int) :
    Server.mergeResultados parseDate none none none =
      { numero := "", classe := "", classeCodigoCNJ := none, area := "",
        assuntos := [], assuntoPrincipal := "", orgaoJulgador := "", juiz := "",
        distribuicao := "", valorAcao := "", grau := "", formato := "",
        nivelSigilo := none, situacao := "", dataUltimaAtualizacao := "",
        partes := [], movimentacoes := [],
        fontes := { datajud := false, esaj1g := false, esaj2g := false,
                    eproc1g := false, eproc2g := false },
        segundoGrau := none } := rfl

end ConsultaTJMS
